import Mathlib

/-!
Shallow embedding of two UI components of the repository:
`src/src/components/forms/Toggle.tsx` (Toggle.Group / Toggle.Item /
createSharedToggleStyles) and the Pager component (`src/unnamed/part_000`).

React state updates are modelled as pure state-transition functions; callback
invocations (`onChange`, `onPageSelected`, `onPageSelecting`, the group field
setter, an item's own `onChange`) are modelled as explicit event traces.
-/

namespace Toggle

/-- The `type` prop of `Toggle.Group` / `Toggle.Item`: `'radio' | 'checkbox'`
(Toggle.tsx line 42). -/
inductive ToggleType
  | radio
  | checkbox
deriving DecidableEq, Repr

/-- The initial selection state of a `Toggle.Group`
(Toggle.tsx lines 80-82): `type === 'radio' ? initialValues.slice(0, 1) :
initialValues`. `slice(0, 1)` is `List.take 1`. -/
def initialSelection (type : ToggleType) (initialValues : List String) :
    List String :=
  if type = ToggleType.radio then initialValues.take 1 else initialValues

/-- The group's `setFieldValue` updater (Toggle.tsx lines 88-97): for
`checkbox`, `s.filter(v => v !== name)` then `value ? state.concat(name) :
state`; for `radio`, `[name]`. -/
def setFieldValue (type : ToggleType) (s : List String) (name : String)
    (value : Bool) : List String :=
  if type = ToggleType.checkbox then
    let state := s.filter (fun v => v ≠ name)
    if value then state ++ [name] else state
  else
    [name]

/-- Applying a sequence of item activations (each a `{name, value}` pair
handed to `setFieldValue`) to a selection state. -/
def applyActivations (type : ToggleType) (init : List String)
    (acts : List (String × Bool)) : List String :=
  acts.foldl (fun s a => setFieldValue type s a.1 a.2) init

/-- JS truthiness of the optional numeric `maxSelections` prop: `undefined`
and `0` are falsy, every other number is truthy. -/
def jsTruthy (maxSelections : Option Nat) : Bool :=
  match maxSelections with
  | none => false
  | some m => m ≠ 0

/-- One run of the `maxReached` effect body (Toggle.tsx lines 105-121):
for `checkbox`, set the flag when `maxSelections && values.length >=
maxSelections && maxReached === false`, clear it when `maxSelections &&
values.length < maxSelections && maxReached === true`, otherwise leave it;
for `radio` the effect body does nothing. The effect re-runs until the flag
is stable; `maxReachedStep` is idempotent, so one application gives the
post-effect fixed point. -/
def maxReachedStep (type : ToggleType) (maxSelections : Option Nat)
    (len : Nat) (flag : Bool) : Bool :=
  if type = ToggleType.checkbox then
    if jsTruthy maxSelections ∧ maxSelections.getD 0 ≤ len ∧ flag = false then
      true
    else if jsTruthy maxSelections ∧ len < maxSelections.getD 0 ∧
        flag = true then
      false
    else flag
  else flag

/-- The mutable state owned by a mounted `Toggle.Group`: the `values`
useState (line 80) and the `maxReached` useState (line 83), the latter taken
at its post-effect fixed point. -/
structure GroupState where
  values : List String
  maxReached : Bool
deriving DecidableEq, Repr

/-- Group state right after mount: `values` initialised from the (possibly
truncated) initial values, `maxReached` initialised to `false` and then
updated once by the effect of lines 105-121. -/
def groupMount (type : ToggleType) (maxSelections : Option Nat)
    (initialValues : List String) : GroupState :=
  let v := initialSelection type initialValues
  { values := v
    maxReached := maxReachedStep type maxSelections v.length false }

/-- One item activation processed by a mounted group: `setFieldValue`
updates `values`, then the effect updates `maxReached`. -/
def groupActivate (type : ToggleType) (maxSelections : Option Nat)
    (st : GroupState) (name : String) (value : Bool) : GroupState :=
  let v := setFieldValue type st.values name value
  { values := v
    maxReached := maxReachedStep type maxSelections v.length st.maxReached }

/-- Group state after mounting with `initialValues` and processing a
sequence of item activations. -/
def groupRun (type : ToggleType) (maxSelections : Option Nat)
    (initialValues : List String) (acts : List (String × Bool)) : GroupState :=
  acts.foldl (fun st a => groupActivate type maxSelections st a.1 a.2)
    (groupMount type maxSelections initialValues)

/-- The props of a child `Item` that the group's render loop reads: its
`name` and its own `disabled` prop. -/
structure ChildProps where
  name : String
  disabled : Bool
deriving DecidableEq, Repr

/-- The props that `Group` injects into a child via `cloneElement`
(Toggle.tsx lines 145-166). -/
structure InjectedProps where
  disabled : Bool
  type : ToggleType
  value : Bool
deriving DecidableEq, Repr

/-- The group's per-child prop computation (Toggle.tsx lines 145-166):
`isSelected = values.includes(child.props.name)`, `isDisabled = disabled ||
child.props.disabled`, then `if (maxReached && !isSelected) isDisabled =
true`; the child receives `disabled`, the resolved `type` and
`value = isSelected`. -/
def injectChildProps (groupDisabled : Bool) (type : ToggleType)
    (values : List String) (maxReached : Bool) (child : ChildProps) :
    InjectedProps :=
  let isSelected := values.contains child.name
  let isDisabled0 := groupDisabled || child.disabled
  let isDisabled := if maxReached && !isSelected then true else isDisabled0
  { disabled := isDisabled
    type := if type = ToggleType.radio then ToggleType.radio
            else ToggleType.checkbox
    value := isSelected }

/-- The selection states reached after each activation of a sequence, in
order. Each `setValues` call builds a fresh array, so each activation is a
distinct state change observed by the `onChange` effect. -/
def selectionStates (type : ToggleType) (v : List String) :
    List (String × Bool) → List (List String)
  | [] => []
  | a :: rest =>
    let v1 := setFieldValue type v a.1 a.2
    v1 :: selectionStates type v1 rest

/-- The trace of `onChange` invocations of a mounted group (Toggle.tsx lines
101-103): the effect fires once after mount with the initial (possibly
truncated) values, and once after every subsequent `values` state change,
each time with the full current selection list. -/
def groupOnChangeTrace (type : ToggleType) (initialValues : List String)
    (acts : List (String × Bool)) : List (List String) :=
  let v0 := initialSelection type initialValues
  v0 :: selectionStates type v0 acts

/-- The configuration error `Toggle.Group` can raise. -/
inductive ConfigError
  | missingValues
deriving DecidableEq, Repr

/-- Construction of a `Toggle.Group` (Toggle.tsx lines 65-83): the guard
`if (!initialValues) throw ...` runs before any hook or rendering; `values`
absent (`undefined`/`null`, modelled as `none`) is falsy and throws, while
any provided array — the empty array included — is truthy and construction
proceeds to the mounted state. No other code path in the component family
throws. -/
def groupConstruct (type : ToggleType) (maxSelections : Option Nat)
    (values : Option (List String)) : Except ConfigError GroupState :=
  match values with
  | none => Except.error ConfigError.missingValues
  | some vs => Except.ok (groupMount type maxSelections vs)

/-- A callback invocation made by `Toggle.Item`'s press handler: either the
group's field setter or the item's own `onChange`, each with a
`{name, value}` pair. -/
inductive ItemCall
  | fieldSetter (name : String) (value : Bool)
  | ownOnChange (name : String) (value : Bool)
deriving DecidableEq, Repr

/-- The item's `onPress` handler (Toggle.tsx lines 207-211): `next = !value`
using the item's current `value` prop, then `setFieldValue({name, value:
next})`, then `onChange?.({name, value: next})` — the optional own
`onChange` is invoked only when supplied (`hasOnChange`). -/
def itemOnPress (name : String) (value : Bool) (hasOnChange : Bool) :
    List ItemCall :=
  let next := !value
  ItemCall.fieldSetter name next ::
    (if hasOnChange then [ItemCall.ownOnChange name next] else [])

/-- A burst of `k` rapid activations before any re-render updates the
`value` prop: the handler has no double-activation guard, so every press
re-issues the same pair of calls. -/
def itemPressBurst (name : String) (value : Bool) (hasOnChange : Bool) :
    Nat → List ItemCall
  | 0 => []
  | k + 1 =>
    itemOnPress name value hasOnChange ++ itemPressBurst name value hasOnChange k

/-- The default `setFieldValue` of the ambient `GroupContext` (Toggle.tsx
lines 29-39), in effect when an `Item` is used outside any `Group`:
`() => {}` — it leaves any surrounding selection state unchanged. -/
def defaultSetFieldValue (s : List String) (_name : String)
    (_value : Bool) : List String :=
  s

/-- The theme's `name` as tested by `createSharedToggleStyles`
(`t.name === 'light'`); any non-light theme behaves alike. -/
inductive ThemeName
  | light
  | dark
deriving DecidableEq, Repr

/-- The palette tokens read by `createSharedToggleStyles`; each token is an
opaque color value. -/
structure Palette where
  primary_25 : String
  primary_100 : String
  primary_400 : String
  primary_500 : String
  primary_600 : String
  primary_800 : String
  primary_900 : String
  contrast_50 : String
  contrast_200 : String
  contrast_300 : String
  contrast_500 : String
  negative_25 : String
  negative_300 : String
  negative_500 : String
  negative_800 : String
  negative_900 : String
deriving DecidableEq, Repr

/-- The slice of the theme object `createSharedToggleStyles` consumes. -/
structure Theme where
  name : ThemeName
  palette : Palette
deriving DecidableEq, Repr

/-- One `ViewStyle` fragment pushed by `createSharedToggleStyles`: each push
sets a background color and a border color. -/
structure ToggleStyle where
  backgroundColor : String
  borderColor : String
deriving DecidableEq, Repr

/-- The input record of `createSharedToggleStyles` (Toggle.tsx lines
280-294); a structure, so the result depends only on the six field values,
never on any textual field order. -/
structure SharedStylesInput where
  theme : Theme
  selected : Bool
  hovered : Bool
  focused : Bool
  disabled : Bool
  hasError : Bool
deriving DecidableEq, Repr

/-- The three style layers returned by `createSharedToggleStyles`. -/
structure SharedStyles where
  baseStyles : List ToggleStyle
  baseHoverStyles : List ToggleStyle
  indicatorStyles : List ToggleStyle
deriving DecidableEq, Repr

/-- The base-layer fragment pushed when `selected` (Toggle.tsx lines
300-304). -/
def selectedBaseLayer (t : Theme) : ToggleStyle :=
  { backgroundColor :=
      if t.name = ThemeName.light then t.palette.primary_25
      else t.palette.primary_900
    borderColor := t.palette.primary_500 }

/-- The base-layer fragment pushed when `hasError` (Toggle.tsx lines
324-329). -/
def errorBaseLayer (t : Theme) : ToggleStyle :=
  { backgroundColor :=
      if t.name = ThemeName.light then t.palette.negative_25
      else t.palette.negative_900
    borderColor :=
      if t.name = ThemeName.light then t.palette.negative_300
      else t.palette.negative_800 }

/-- The base-layer fragment pushed when `disabled` (Toggle.tsx lines
341-344). -/
def disabledBaseLayer (t : Theme) : ToggleStyle :=
  { backgroundColor := t.palette.contrast_200
    borderColor := t.palette.contrast_300 }

/-- The hover fragment pushed when `selected` and hovered-or-focused
(Toggle.tsx lines 307-312). -/
def selectedHoverLayer (t : Theme) : ToggleStyle :=
  { backgroundColor :=
      if t.name = ThemeName.light then t.palette.primary_100
      else t.palette.primary_800
    borderColor :=
      if t.name = ThemeName.light then t.palette.primary_600
      else t.palette.primary_400 }

/-- The hover fragment pushed when not selected and hovered-or-focused
(Toggle.tsx lines 316-319). -/
def unselectedHoverLayer (t : Theme) : ToggleStyle :=
  { backgroundColor := t.palette.contrast_50
    borderColor := t.palette.contrast_500 }

/-- The hover fragment pushed when `hasError` and hovered-or-focused
(Toggle.tsx lines 332-336). -/
def errorHoverLayer (t : Theme) : ToggleStyle :=
  { backgroundColor :=
      if t.name = ThemeName.light then t.palette.negative_25
      else t.palette.negative_900
    borderColor := t.palette.negative_500 }

/-- `createSharedToggleStyles` (Toggle.tsx lines 280-352): builds the
`base`, `baseHover` and `indicator` arrays by the source's sequence of
conditional pushes — selected first, then error, then disabled for the base
layer; hover fragments only inside `hovered || focused` guards; the
indicator array is never pushed to. -/
def createSharedToggleStyles (input : SharedStylesInput) : SharedStyles :=
  let t := input.theme
  let hf := input.hovered || input.focused
  let base1 := if input.selected then [selectedBaseLayer t] else []
  let hover1 :=
    if input.selected then (if hf then [selectedHoverLayer t] else [])
    else (if hf then [unselectedHoverLayer t] else [])
  let base2 := if input.hasError then [errorBaseLayer t] else []
  let hover2 := if input.hasError then (if hf then [errorHoverLayer t] else [])
    else []
  let base3 := if input.disabled then [disabledBaseLayer t] else []
  { baseStyles := base1 ++ base2 ++ base3
    baseHoverStyles := hover1 ++ hover2
    indicatorStyles := [] }

end Toggle

namespace Pager

/-- The Pager's internal state (part_000 line 29): the `selectedPage`
useState, a JS number index (arbitrary integer; no bounds are enforced). -/
structure PagerState where
  selectedPage : Int
deriving DecidableEq, Repr

/-- A callback invocation made by the Pager. -/
inductive Event
  | pageSelected (i : Int)
  | pageSelecting (i : Int)
deriving DecidableEq, Repr

/-- The tab bar's selection handler `onTabBarSelect` (part_000 lines 35-42):
`setSelectedPage(index)`, then `onPageSelected?.(index)`, then
`onPageSelecting?.(index)` — unconditionally, with no comparison against the
current page. Returns the new state and the emitted callback invocations in
order. -/
def onTabBarSelect (_st : PagerState) (index : Int) :
    PagerState × List Event :=
  ({ selectedPage := index },
   [Event.pageSelected index, Event.pageSelecting index])

/-- The imperative handle's `setPage` (part_000 lines 31-33): it only calls
`setSelectedPage(index)` and invokes neither callback. -/
def setPage (_st : PagerState) (index : Int) : PagerState × List Event :=
  ({ selectedPage := index }, [])

/-- An externally triggerable Pager mutation: a tab-bar selection or an
imperative `setPage` call. -/
inductive Command
  | tabSelect (i : Int)
  | setPageCmd (i : Int)
deriving DecidableEq, Repr

/-- Dispatch one command to its handler. -/
def step (st : PagerState) : Command → PagerState × List Event
  | Command.tabSelect i => onTabBarSelect st i
  | Command.setPageCmd i => setPage st i

/-- Run a sequence of commands, accumulating the emitted events in order. -/
def run (st : PagerState) : List Command → PagerState × List Event
  | [] => (st, [])
  | c :: rest =>
    let p := step st c
    let q := run p.1 rest
    (q.1, p.2 ++ q.2)

/-- Whether a command is a tab-bar selection. -/
def isTabSelect : Command → Bool
  | Command.tabSelect _ => true
  | Command.setPageCmd _ => false

/-- The visual style the Pager gives each child wrapper (part_000 lines
51-57): `selectedPage === i ? s.flex1 : {display: 'none'}`. -/
inductive PaneStyle
  | flex1
  | displayNone
deriving DecidableEq, Repr

/-- The style of the pane at position `i` for a given selected page. -/
def paneStyleAt (selectedPage : Int) (i : Nat) : PaneStyle :=
  if selectedPage = (i : Int) then PaneStyle.flex1 else PaneStyle.displayNone

/-- The Pager's render of `n` children (part_000 lines 51-57):
`React.Children.map` wraps every child in a `View`, so all `n` panes are
mounted; each pane's style hides it unless its position equals the selected
page. -/
def renderPanes (selectedPage : Int) (n : Nat) : List PaneStyle :=
  (List.range n).map (paneStyleAt selectedPage)

end Pager

namespace Toggle

/-- In radio mode, a nonempty activation sequence always ends in the
singleton of the last activated name, whatever the starting selection. -/
theorem radio_apply_getLast (init : List String)
    (acts : List (String × Bool)) (h : acts ≠ []) :
    applyActivations ToggleType.radio init acts = [(acts.getLast h).1] := by
  induction acts generalizing init with
  | nil => exact absurd rfl h
  | cons a rest ih =>
    cases rest with
    | nil => simp [applyActivations, setFieldValue]
    | cons b rs =>
      have hr : (b :: rs : List (String × Bool)) ≠ [] := by simp
      have step := ih (setFieldValue ToggleType.radio init a.1 a.2) hr
      rw [applyActivations, List.foldl_cons]
      rw [applyActivations] at step
      rw [step, List.getLast_cons hr]

end Toggle

/-- Claim C1: for a Toggle.Group with type radio, the selection list never
holds more than one name — the initial values are truncated to their first
element and every activation replaces the whole selection — and after any
nonempty sequence of item activations the selection equals exactly the
singleton of the most recently activated name. -/
theorem radio_selection_is_last_activated (init : List String)
    (acts : List (String × Bool)) (h : acts ≠ []) :
    Toggle.initialSelection Toggle.ToggleType.radio init = init.take 1 ∧
    (∀ k : Nat,
      (Toggle.applyActivations Toggle.ToggleType.radio
        (Toggle.initialSelection Toggle.ToggleType.radio init)
        (acts.take k)).length ≤ 1) ∧
    Toggle.applyActivations Toggle.ToggleType.radio
        (Toggle.initialSelection Toggle.ToggleType.radio init) acts
      = [(acts.getLast h).1] := by
  refine ⟨rfl, ?_, Toggle.radio_apply_getLast _ acts h⟩
  intro k
  by_cases hk : acts.take k = []
  · rw [hk]
    simp [Toggle.applyActivations, Toggle.initialSelection]
  · rw [Toggle.radio_apply_getLast _ _ hk]
    simp

/-- Witness for claim C1 at a concrete input. -/
theorem radio_selection_is_last_activated_witness :
    Toggle.applyActivations Toggle.ToggleType.radio
        (Toggle.initialSelection Toggle.ToggleType.radio ["a", "b"])
        [("x", true), ("y", false)]
      = ["y"] := by
  have h :=
    (radio_selection_is_last_activated ["a", "b"] [("x", true), ("y", false)]
      (by simp)).2.2
  simpa using h

/-- Claim C2: for a checkbox group, the field setter applied to selection
`s` with `{name, v}` yields `s` with every occurrence of `name` removed and
`name` appended at the end iff `v` is true; membership in the result is
characterised accordingly, and toggling `name` to a value it already has
leaves the set of selected names unchanged. -/
theorem checkbox_setFieldValue_update (s : List String) (name : String)
    (v : Bool) :
    Toggle.setFieldValue Toggle.ToggleType.checkbox s name v
      = s.filter (fun y => y ≠ name) ++ (if v then [name] else []) ∧
    (∀ x, x ∈ Toggle.setFieldValue Toggle.ToggleType.checkbox s name v ↔
      ((x ∈ s ∧ x ≠ name) ∨ (v = true ∧ x = name))) ∧
    ((name ∈ s ↔ v = true) →
      ∀ x, x ∈ Toggle.setFieldValue Toggle.ToggleType.checkbox s name v ↔
        x ∈ s) := by
  refine ⟨?_, ?_, ?_⟩
  · cases v <;> simp [Toggle.setFieldValue]
  · intro x
    cases v <;> simp [Toggle.setFieldValue]
  · intro hsv x
    cases v with
    | false =>
      have hn : name ∉ s := fun hmem => by simpa using hsv.mp hmem
      simp [Toggle.setFieldValue]
      intro hx
      exact fun e => hn (e ▸ hx)
    | true =>
      have hn : name ∈ s := hsv.mpr rfl
      simp [Toggle.setFieldValue]
      constructor
      · rintro (⟨hx, _⟩ | rfl)
        · exact hx
        · exact hn
      · intro hx
        by_cases hxe : x = name
        · exact Or.inr hxe
        · exact Or.inl ⟨hx, hxe⟩

/-- Witness for claim C2 at a concrete input. -/
theorem checkbox_setFieldValue_update_witness :
    ("a" ∈ Toggle.setFieldValue Toggle.ToggleType.checkbox ["a", "b"] "b" true
      ↔ "a" ∈ (["a", "b"] : List String)) :=
  (checkbox_setFieldValue_update ["a", "b"] "b" true).2.2 (by simp) "a"

namespace Toggle

/-- For a positive configured maximum, one run of the effect body puts the
flag at its fixed point: true exactly when the selection size has reached
the maximum. -/
theorem maxReachedStep_pos (m : Nat) (hm : 1 ≤ m) (len : Nat) (flag : Bool) :
    maxReachedStep ToggleType.checkbox (some m) len flag
      = decide (m ≤ len) := by
  have hm0 : m ≠ 0 := by omega
  cases flag <;> by_cases hlen : m ≤ len <;>
    simp [maxReachedStep, jsTruthy, hm0, hlen, Nat.lt_of_not_le, Nat.not_le,
      Nat.not_lt]

/-- For a positive configured maximum, the mounted group keeps `maxReached`
at its fixed point through every activation sequence. -/
theorem groupRun_maxReached_fixed (m : Nat) (hm : 1 ≤ m)
    (init : List String) (acts : List (String × Bool)) :
    (groupRun ToggleType.checkbox (some m) init acts).maxReached
      = decide
          (m ≤ (groupRun ToggleType.checkbox (some m) init acts).values.length) := by
  suffices h : ∀ (acts : List (String × Bool)) (st : GroupState),
      st.maxReached = decide (m ≤ st.values.length) →
      (acts.foldl
          (fun s a => groupActivate ToggleType.checkbox (some m) s a.1 a.2)
          st).maxReached
        = decide (m ≤
            (acts.foldl
              (fun s a => groupActivate ToggleType.checkbox (some m) s a.1 a.2)
              st).values.length) by
    exact h acts (groupMount ToggleType.checkbox (some m) init)
      (by simp [groupMount, maxReachedStep_pos m hm])
  intro acts
  induction acts with
  | nil => intro st hst; exact hst
  | cons a rest ih =>
    intro st _
    rw [List.foldl_cons]
    exact ih (groupActivate ToggleType.checkbox (some m) st a.1 a.2)
      (by simp [groupActivate, maxReachedStep_pos m hm])

end Toggle

/-- Claim C3 counterexample: with maxSelections set to 0 the selection size
0 already reaches the cap, yet the code never sets the max-reached flag
(the JS guard `maxSelections &&` reads 0 as falsy), so an unselected child
is propagated disabled = false rather than true. -/
theorem maxSelections_zero_not_enforced :
    (Toggle.groupRun Toggle.ToggleType.checkbox (some 0) [] []).values.length
        ≥ 0 ∧
    (Toggle.groupRun Toggle.ToggleType.checkbox (some 0) [] []).maxReached
        = false ∧
    (Toggle.injectChildProps false Toggle.ToggleType.checkbox
        (Toggle.groupRun Toggle.ToggleType.checkbox (some 0) [] []).values
        (Toggle.groupRun Toggle.ToggleType.checkbox (some 0) [] []).maxReached
        ⟨"a", false⟩).disabled
      = false := by
  refine ⟨Nat.zero_le _, rfl, rfl⟩

/-- Claim C3 (amended: for maxSelections = m with m ≥ 1, since the code
reads a configured maximum of 0 as absent): in a checkbox group with
maxSelections = m ≥ 1 and the group itself not disabled, after any
activation sequence the max-reached flag equals whether the selection size
reached m; while the size is ≥ m every child not currently selected (and
not disabled on its own) is propagated disabled = true, selected children
stay enabled, and whenever the size is below m a child that is not disabled
on its own is propagated disabled = false. -/
theorem checkbox_maxSelections_enforcement (m : Nat) (hm : 1 ≤ m)
    (init : List String) (acts : List (String × Bool)) (childName : String) :
    (Toggle.groupRun Toggle.ToggleType.checkbox (some m) init acts).maxReached
      = decide (m ≤
          (Toggle.groupRun Toggle.ToggleType.checkbox (some m) init
            acts).values.length) ∧
    (m ≤ (Toggle.groupRun Toggle.ToggleType.checkbox (some m) init
          acts).values.length →
      (Toggle.groupRun Toggle.ToggleType.checkbox (some m) init
          acts).values.contains childName = false →
      (Toggle.injectChildProps false Toggle.ToggleType.checkbox
          (Toggle.groupRun Toggle.ToggleType.checkbox (some m) init
            acts).values
          (Toggle.groupRun Toggle.ToggleType.checkbox (some m) init
            acts).maxReached
          ⟨childName, false⟩).disabled = true) ∧
    ((Toggle.groupRun Toggle.ToggleType.checkbox (some m) init
          acts).values.contains childName = true →
      (Toggle.injectChildProps false Toggle.ToggleType.checkbox
          (Toggle.groupRun Toggle.ToggleType.checkbox (some m) init
            acts).values
          (Toggle.groupRun Toggle.ToggleType.checkbox (some m) init
            acts).maxReached
          ⟨childName, false⟩).disabled = false) ∧
    ((Toggle.groupRun Toggle.ToggleType.checkbox (some m) init
          acts).values.length < m →
      (Toggle.injectChildProps false Toggle.ToggleType.checkbox
          (Toggle.groupRun Toggle.ToggleType.checkbox (some m) init
            acts).values
          (Toggle.groupRun Toggle.ToggleType.checkbox (some m) init
            acts).maxReached
          ⟨childName, false⟩).disabled = false) := by
  have hfix := Toggle.groupRun_maxReached_fixed m hm init acts
  refine ⟨hfix, ?_, ?_, ?_⟩
  · intro hlen hsel
    simp only [Toggle.injectChildProps, hfix, hsel]
    simp [hlen]
  · intro hsel
    simp only [Toggle.injectChildProps, hsel]
    simp
  · intro hlen
    simp only [Toggle.injectChildProps, hfix]
    simp [Nat.not_le.mpr hlen]

/-- Witness for the amended claim C3 at a concrete input. -/
theorem checkbox_maxSelections_enforcement_witness :
    (Toggle.injectChildProps false Toggle.ToggleType.checkbox
        (Toggle.groupRun Toggle.ToggleType.checkbox (some 1) ["a"] []).values
        (Toggle.groupRun Toggle.ToggleType.checkbox (some 1) ["a"] []).maxReached
        ⟨"b", false⟩).disabled = true :=
  (checkbox_maxSelections_enforcement 1 (by decide) ["a"] [] "b").2.1
    (by decide) (by decide)

namespace Toggle

/-- The state list reached by a sequence of activations has one entry per
activation. -/
theorem selectionStates_length (type : ToggleType) (v : List String)
    (acts : List (String × Bool)) :
    (selectionStates type v acts).length = acts.length := by
  induction acts generalizing v with
  | nil => rfl
  | cons a rest ih => simp [selectionStates, ih]

/-- The k-th entry of the onChange trace is the selection reached by the
first k activations. -/
theorem trace_get_eq_apply (type : ToggleType) (v0 : List String)
    (acts : List (String × Bool)) :
    ∀ k : Nat, k ≤ acts.length →
      (v0 :: selectionStates type v0 acts).get? k
        = some (applyActivations type v0 (acts.take k)) := by
  induction acts generalizing v0 with
  | nil =>
    intro k hk
    have : k = 0 := Nat.le_zero.mp hk
    subst this
    simp [selectionStates, applyActivations]
  | cons a rest ih =>
    intro k hk
    cases k with
    | zero => simp [applyActivations]
    | succ k =>
      have hk' : k ≤ rest.length := by simpa using hk
      calc (v0 :: selectionStates type v0 (a :: rest)).get? (k + 1)
          = ((setFieldValue type v0 a.1 a.2) ::
              selectionStates type (setFieldValue type v0 a.1 a.2) rest).get? k := by
            simp [selectionStates]
        _ = some (applyActivations type (setFieldValue type v0 a.1 a.2)
              (rest.take k)) := ih _ k hk'
        _ = some (applyActivations type v0 ((a :: rest).take (k + 1))) := by
            simp [applyActivations]

end Toggle

/-- Claim C4: a mounted Toggle.Group invokes onChange exactly once on mount
with the initial values and exactly once after each of the subsequent n
selection-state changes (trace length n + 1), always with the complete
ordered selection list — the k-th call carries the selection reached by the
first k activations; with values = [a, b] and type checkbox the first call
receives [a, b] and after deactivating a the next call receives [b]. -/
theorem group_onChange_trace (type : Toggle.ToggleType) (init : List String)
    (acts : List (String × Bool)) :
    (Toggle.groupOnChangeTrace type init acts).length = acts.length + 1 ∧
    (Toggle.groupOnChangeTrace type init acts).head?
      = some (Toggle.initialSelection type init) ∧
    (∀ k : Nat, k ≤ acts.length →
      (Toggle.groupOnChangeTrace type init acts).get? k
        = some (Toggle.applyActivations type
            (Toggle.initialSelection type init) (acts.take k))) ∧
    Toggle.groupOnChangeTrace Toggle.ToggleType.checkbox ["a", "b"]
        [("a", false)]
      = [["a", "b"], ["b"]] := by
  refine ⟨?_, ?_, ?_, ?_⟩
  · simp [Toggle.groupOnChangeTrace, Toggle.selectionStates_length]
  · simp [Toggle.groupOnChangeTrace]
  · exact Toggle.trace_get_eq_apply type _ acts
  · rfl

/-- Witness for claim C4 at a concrete input. -/
theorem group_onChange_trace_witness :
    (Toggle.groupOnChangeTrace Toggle.ToggleType.checkbox ["a", "b"]
        [("a", false)]).get? 1
      = some (Toggle.applyActivations Toggle.ToggleType.checkbox
          (Toggle.initialSelection Toggle.ToggleType.checkbox ["a", "b"])
          ([("a", false)].take 1)) :=
  (group_onChange_trace Toggle.ToggleType.checkbox ["a", "b"]
    [("a", false)]).2.2.1 1 (by decide)

/-- Claim C5: constructing a Toggle.Group errors exactly when the values
argument is absent — the only error the modelled component family raises —
and with values provided (the empty list included) construction succeeds
before any rendering, yielding the mounted state. -/
theorem group_requires_values (type : Toggle.ToggleType)
    (maxSelections : Option Nat) (values : Option (List String)) :
    ((∃ e, Toggle.groupConstruct type maxSelections values = Except.error e)
      ↔ values = none) ∧
    (values = none →
      Toggle.groupConstruct type maxSelections values
        = Except.error Toggle.ConfigError.missingValues) ∧
    (∀ vs, values = some vs →
      Toggle.groupConstruct type maxSelections values
        = Except.ok (Toggle.groupMount type maxSelections vs)) := by
  refine ⟨?_, ?_, ?_⟩
  · cases values <;> simp [Toggle.groupConstruct]
    exact ⟨Toggle.ConfigError.missingValues, trivial⟩
  · rintro rfl; rfl
  · rintro vs rfl; rfl

/-- Witness for claim C5 at a concrete input: the empty values list is
accepted. -/
theorem group_requires_values_witness :
    Toggle.groupConstruct Toggle.ToggleType.checkbox none (some [])
      = Except.ok (Toggle.groupMount Toggle.ToggleType.checkbox none []) :=
  (group_requires_values Toggle.ToggleType.checkbox none (some [])).2.2 []
    rfl

namespace Pager

/-- The event trace of a run of tab-bar selections: two callback
invocations per selection, in selection order; the trace does not depend on
the starting state. -/
theorem run_tabSelects_trace (st : PagerState) (sels : List Int) :
    (run st (sels.map Command.tabSelect)).2
      = sels.flatMap
          (fun j => [Event.pageSelected j, Event.pageSelecting j]) := by
  induction sels generalizing st with
  | nil => rfl
  | cons j rest ih =>
    simp only [List.map_cons, run, step, onTabBarSelect, List.flatMap_cons]
    rw [ih]

/-- Counting one selection's pair of events. -/
theorem count_event_pair (i j : Int) :
    ([Event.pageSelected j, Event.pageSelecting j].count (Event.pageSelected i)
      = if j = i then 1 else 0) ∧
    ([Event.pageSelected j, Event.pageSelecting j].count (Event.pageSelecting i)
      = if j = i then 1 else 0) := by
  constructor <;> by_cases h : j = i <;>
    simp [List.count_cons, h]

end Pager

/-- Claim C6: every tab-bar selection of index i sets the internal selected
index to i and then invokes onPageSelected and onPageSelecting, each
exactly once with i, unconditionally — re-selecting the already-active page
included, with no debouncing or no-op short-circuit: over any selection
sequence each callback fires once per selection, so the count of either
event for index i equals the number of selections of i. -/
theorem tabSelect_fires_both_callbacks (st : Pager.PagerState)
    (sels : List Int) (i : Int) :
    Pager.onTabBarSelect st i
      = ({ selectedPage := i },
         [Pager.Event.pageSelected i, Pager.Event.pageSelecting i]) ∧
    (Pager.run st (sels.map Pager.Command.tabSelect)).2
      = sels.flatMap (fun j =>
          [Pager.Event.pageSelected j, Pager.Event.pageSelecting j]) ∧
    ((Pager.run st (sels.map Pager.Command.tabSelect)).2.count
        (Pager.Event.pageSelected i) = sels.count i) ∧
    ((Pager.run st (sels.map Pager.Command.tabSelect)).2.count
        (Pager.Event.pageSelecting i) = sels.count i) := by
  refine ⟨rfl, Pager.run_tabSelects_trace st sels, ?_, ?_⟩ <;>
    · rw [Pager.run_tabSelects_trace st sels]
      induction sels with
      | nil => rfl
      | cons j rest ih =>
        by_cases h : j = i <;>
          simp [List.count_cons, List.count_append, ih, h,
            Pager.count_event_pair, List.count_eq_zero]

/-- Claim C7: for every index i within the children bounds, after
setPage(i) the Pager renders all n panes (every pane stays mounted) and
exactly the pane at position i gets the visible style while every other
pane gets the hidden style. -/
theorem setPage_shows_exactly_one_pane (st : Pager.PagerState) (n i : Nat)
    (h : i < n) :
    (Pager.renderPanes ((Pager.setPage st (i : Int)).1.selectedPage) n).length
      = n ∧
    (Pager.renderPanes ((Pager.setPage st (i : Int)).1.selectedPage) n).get? i
      = some Pager.PaneStyle.flex1 ∧
    (∀ j : Nat, j < n → j ≠ i →
      (Pager.renderPanes ((Pager.setPage st (i : Int)).1.selectedPage) n).get? j
        = some Pager.PaneStyle.displayNone) := by
  refine ⟨by simp [Pager.renderPanes], ?_, ?_⟩
  · simp [Pager.renderPanes, Pager.setPage, List.getElem?_map,
      List.getElem?_range, h, Pager.paneStyleAt]
  · intro j hj hne
    simp [Pager.renderPanes, Pager.setPage, List.getElem?_map,
      List.getElem?_range, hj, Pager.paneStyleAt]
    intro he
    exact hne (by exact_mod_cast he.symm)

/-- Witness for claim C7 at a concrete input. -/
theorem setPage_shows_exactly_one_pane_witness :
    (Pager.renderPanes ((Pager.setPage ⟨0⟩ ((1 : Nat) : Int)).1.selectedPage)
        3).get? 1
      = some Pager.PaneStyle.flex1 :=
  (setPage_shows_exactly_one_pane ⟨0⟩ 3 1 (by decide)).2.1

/-- Claim C8: every activation of a Toggle.Item computes the negation of
the current value prop and invokes the group field setter and then the
item's own onChange (when supplied) with that same pair; a burst of k rapid
activations re-issues both calls each time — k field-setter calls and k
own-onChange calls, with no double-activation guard; outside any Group the
field setter is the context default no-op, which leaves any selection
unchanged, so only the item's own onChange has an effect. -/
theorem item_press_invokes_setter_then_onChange (name : String)
    (value : Bool) (k : Nat) (s : List String) :
    Toggle.itemOnPress name value true
      = [Toggle.ItemCall.fieldSetter name (!value),
         Toggle.ItemCall.ownOnChange name (!value)] ∧
    Toggle.itemOnPress name value false
      = [Toggle.ItemCall.fieldSetter name (!value)] ∧
    (Toggle.itemPressBurst name value true k).count
        (Toggle.ItemCall.fieldSetter name (!value)) = k ∧
    (Toggle.itemPressBurst name value true k).count
        (Toggle.ItemCall.ownOnChange name (!value)) = k ∧
    Toggle.defaultSetFieldValue s name (!value) = s := by
  refine ⟨rfl, rfl, ?_, ?_, rfl⟩ <;>
    · induction k with
      | zero => rfl
      | succ k ih =>
        simp [Toggle.itemPressBurst, Toggle.itemOnPress, List.count_cons, ih]

/-- Claim C9: createSharedToggleStyles is a pure function of the six fields
of its input record (a structure, so no textual field order exists); for a
selected, erroring and disabled input its base styles are exactly the
selected layer, then the error layer, then the disabled layer — disabled
applied last — and for any input the hover-overlay styles are nonempty
exactly when hovered or focused is true; the indicator layer is always
empty. -/
theorem sharedToggleStyles_layering (t : Toggle.Theme)
    (hovered focused : Bool) (input : Toggle.SharedStylesInput) :
    (Toggle.createSharedToggleStyles
        { theme := t, selected := true, hovered := hovered,
          focused := focused, disabled := true, hasError := true }).baseStyles
      = [Toggle.selectedBaseLayer t, Toggle.errorBaseLayer t,
         Toggle.disabledBaseLayer t] ∧
    ((Toggle.createSharedToggleStyles input).baseHoverStyles ≠ [] ↔
      (input.hovered = true ∨ input.focused = true)) ∧
    (Toggle.createSharedToggleStyles input).indicatorStyles = [] := by
  refine ⟨by simp [Toggle.createSharedToggleStyles], ?_, rfl⟩
  obtain ⟨th, sel, hov, foc, dis, err⟩ := input
  cases hov <;> cases foc <;> cases sel <;> cases err <;>
    simp [Toggle.createSharedToggleStyles]

namespace Pager

/-- The event trace of a command run does not depend on the starting state:
both handlers ignore the state they replace. -/
theorem run_trace_congr (cmds : List Command) (st st' : PagerState) :
    (run st cmds).2 = (run st' cmds).2 := by
  induction cmds generalizing st st' with
  | nil => rfl
  | cons c rest ih =>
    cases c <;> simp [run, step, onTabBarSelect, setPage]

end Pager

/-- Claim C10: an imperative setPage(i) call only updates the internal
selected-page state and invokes neither onPageSelected nor onPageSelecting;
over any mixed command sequence the emitted events are exactly those of its
tab-bar selections, and a run of setPage calls alone emits no events at
all. -/
theorem setPage_emits_no_callbacks (st : Pager.PagerState) (i : Int)
    (cmds : List Pager.Command) (is : List Int) :
    Pager.setPage st i = ({ selectedPage := i }, []) ∧
    (Pager.run st cmds).2
      = (Pager.run st (cmds.filter Pager.isTabSelect)).2 ∧
    (Pager.run st (is.map Pager.Command.setPageCmd)).2 = [] ∧
    (Pager.run st (is.map Pager.Command.setPageCmd)).1.selectedPage
      = is.getLastD st.selectedPage := by
  refine ⟨rfl, ?_, ?_, ?_⟩
  · induction cmds generalizing st with
    | nil => rfl
    | cons c rest ih =>
      cases c with
      | tabSelect j =>
        simp only [Pager.run, Pager.step, Pager.onTabBarSelect,
          List.filter_cons, Pager.isTabSelect, if_pos rfl]
        rw [ih]
      | setPageCmd j =>
        have h1 : Pager.isTabSelect (Pager.Command.setPageCmd j) = false := rfl
        simp only [Pager.run, Pager.step, Pager.setPage, List.filter_cons, h1,
          Bool.false_eq_true, if_false, List.nil_append]
        rw [ih]
        exact Pager.run_trace_congr (rest.filter Pager.isTabSelect) _ st
  · induction is generalizing st with
    | nil => rfl
    | cons j rest ih =>
      simp only [List.map_cons, Pager.run, Pager.step, Pager.setPage]
      rw [ih]
      simp
  · induction is generalizing st with
    | nil => rfl
    | cons j rest ih =>
      simp only [List.map_cons, Pager.run, Pager.step, Pager.setPage]
      rw [ih]
      rw [List.getLastD_cons]
